import Mathlib

/-!
# Verification of the spotix-backend ticket-issuance routes

A shallow embedding of the HTTP route handlers in `src/v1/IWSS.js`
(paid and free ticket issuance), `src/v1/webhook.js`, `src/v1/verify.js`
and `src/v1/verify-payment.js`, together with proofs of the testable
properties stated in the repository specification.

The Firestore document database is modelled as explicit association
lists (one per collection actually touched by the handlers); each
handler becomes a pure function from a request and a store to a
response and an updated store.  Randomness (`Math.random()`) and wall
clock time (`new Date()`) are passed in as explicit parameters.
External HTTP side calls (atomic-operations, analytics, e-mail) never
touch the store and are swallowed on failure by the source, so they
are not part of the store transition.
-/

namespace Spotix

/-! ## Association-list primitives (the document-store model) -/

/-- Look a key up in an association list (first binding wins),
modelling a Firestore document `get` by document path. -/
def alookup {α β : Type} [DecidableEq α] : List (α × β) → α → Option β
  | [], _ => none
  | (k, v) :: l, k' => if k' = k then some v else alookup l k'

/-- Replace the binding for `k` (or append one), modelling a Firestore
document `set` by document path. -/
def aset {α β : Type} [DecidableEq α] : List (α × β) → α → β → List (α × β)
  | [], k, v => [(k, v)]
  | (k0, v0) :: l, k, v => if k = k0 then (k, v) :: l else (k0, v0) :: aset l k v

/-- Apply `f` to the document at key `k` when it exists, modelling a
Firestore `update` of selected fields of an existing document. -/
def amap {α β : Type} [DecidableEq α] (f : β → β) : List (α × β) → α → List (α × β)
  | [], _ => []
  | (k0, v0) :: l, k => if k = k0 then (k0, f v0) :: l else (k0, v0) :: amap f l k

theorem alookup_aset_self {α β : Type} [DecidableEq α]
    (l : List (α × β)) (k : α) (v : β) : alookup (aset l k v) k = some v := by
  induction l with
  | nil => simp [aset, alookup]
  | cons p l ih =>
    obtain ⟨k0, v0⟩ := p
    by_cases h : k = k0 <;> simp [aset, alookup, h, ih]

theorem alookup_aset_ne {α β : Type} [DecidableEq α]
    (l : List (α × β)) (k k' : α) (v : β) (h : k' ≠ k) :
    alookup (aset l k v) k' = alookup l k' := by
  induction l with
  | nil => simp [aset, alookup, h]
  | cons p l ih =>
    obtain ⟨k0, v0⟩ := p
    by_cases h0 : k = k0
    · subst h0; simp [aset, alookup, h]
    · by_cases h1 : k' = k0 <;> simp [aset, alookup, h0, h1, ih]

theorem alookup_amap_self {α β : Type} [DecidableEq α]
    (f : β → β) (l : List (α × β)) (k : α) :
    alookup (amap f l k) k = (alookup l k).map f := by
  induction l with
  | nil => simp [amap, alookup]
  | cons p l ih =>
    obtain ⟨k0, v0⟩ := p
    by_cases h : k = k0
    · subst h; simp [amap, alookup]
    · simp [amap, alookup, h, ih, Ne.symm h]

theorem alookup_amap_ne {α β : Type} [DecidableEq α]
    (f : β → β) (l : List (α × β)) (k k' : α) (h : k' ≠ k) :
    alookup (amap f l k) k' = alookup l k' := by
  induction l with
  | nil => simp [amap, alookup]
  | cons p l ih =>
    obtain ⟨k0, v0⟩ := p
    by_cases h0 : k = k0
    · subst h0; simp [amap, alookup, h]
    · by_cases h1 : k' = k0 <;> simp [amap, alookup, h0, h1, ih]

/-! ## JavaScript string and truthiness helpers -/

/-- JS truthiness of an optional string: `undefined`, `null` and the
empty string are falsy, every other string is truthy. -/
def truthy : Option String → Bool
  | none => false
  | some s => !(s = "")

/-- `String.prototype.substring(a, b)` for `a ≤ b`: the characters in
positions `[a, b)`, with out-of-range indices clamped. -/
def jsSubstring (s : String) (a b : Nat) : String :=
  ⟨(s.toList.take b).drop a⟩

/-- `String.prototype.substring(a)`: the characters from position `a` on. -/
def jsSubstringFrom (s : String) (a : Nat) : String :=
  ⟨s.toList.drop a⟩

/-- `s[i]` interpolated into a template literal: the one-character
string at position `i`, or the string `"undefined"` when the index is
out of range (JS renders the `undefined` value this way). -/
def jsCharAt (s : String) (i : Nat) : String :=
  match s.toList.get? i with
  | some c => String.mk [c]
  | none => "undefined"

/-! ## Data model

One structure per kind of Firestore document the handlers read or
write.  A field that the source reads with a `|| default` fallback, or
that may be absent from a document, is `Option`-typed; fields that the
source uses unconditionally as document-path segments (`userId`,
`eventId`, `eventCreatorId`) are plain strings. -/

/-- A document of the `Reference` collection, one per payment attempt
(`src/v1/IWSS.js`, `src/v1/webhook.js`, `src/v1/verify-payment.js`). -/
structure RefRecord where
  status : Option String := none
  ticketId : Option String := none
  userId : String := ""
  ticketType : String := ""
  ticketPrice : Option Int := none
  transactionFee : Option Int := none
  totalAmount : Option Int := none
  discountCode : Option String := none
  referralCode : Option String := none
  referralName : Option String := none
  eventId : String := ""
  eventName : String := ""
  eventCreatorId : String := ""
  eventVenue : Option String := none
  eventType : Option String := none
  eventDate : Option String := none
  eventEndDate : Option String := none
  eventStart : Option String := none
  eventEnd : Option String := none
  bookerName : Option String := none
  bookerEmail : Option String := none
  vendor : Option String := none
  ticketGenerated : Option Bool := none
  ticketGeneratedAt : Option String := none
  ticketIdGeneratedAt : Option String := none
  updatedAt : Option String := none
  paystackEvent : Option String := none
  transactionType : Option String := none
  amount : Option Int := none
  currency : Option String := none
  customerEmail : Option String := none
  customerCode : Option String := none
  deriving DecidableEq, Repr

/-- A document of the `users` collection. -/
structure UserRecord where
  fullName : Option String := none
  username : Option String := none
  email : Option String := none
  phoneNumber : Option String := none
  deriving DecidableEq, Repr

/-- The `ticketData` object built in step 4 of both issuance routes;
written verbatim into the `attendees` location. -/
structure TicketDoc where
  uid : String
  fullName : String
  email : String
  phoneNumber : String
  ticketType : String
  ticketId : String
  ticketReference : String
  purchaseDate : String
  purchaseTime : String
  verified : Bool
  paymentMethod : String
  originalPrice : Int
  ticketPrice : Int
  transactionFee : Int
  totalAmount : Int
  discountApplied : Bool
  discountCode : Option String
  referralCode : Option String
  referralName : Option String
  eventVenue : Option String
  eventType : Option String
  eventDate : Option String
  eventEndDate : Option String
  eventStart : Option String
  eventEnd : Option String
  createdAt : String
  deriving DecidableEq, Repr

/-- The `TicketHistory` variant of the ticket document: `ticketData`
spread together with three extra event fields (IWSS.js step 5). -/
structure TicketHistoryDoc extends TicketDoc where
  eventId : String
  eventName : String
  eventCreatorId : String
  deriving DecidableEq, Repr

/-- The document written into the `admin` ledger (IWSS.js step 9). -/
structure AdminDoc where
  reference : String
  uid : String
  ticketPrice : Option Int
  ticketType : String
  date : String
  purchaseDate : String
  purchaseTime : String
  eventName : String
  eventCreatorId : String
  deriving DecidableEq, Repr

/-- One entry of a referral document's `usages` array. -/
structure UsageEntry where
  name : String
  ticketType : String
  purchaseDate : String
  deriving DecidableEq, Repr

/-- A referral document (IWSS.js step 8). -/
structure ReferralDoc where
  usages : List UsageEntry := []
  totalTickets : Int := 0
  deriving DecidableEq, Repr

/-- The document store: every collection/path family the handlers
touch.  `ticketHistory` is keyed by (userId, ticketId), `attendees` by
(eventCreatorId, eventId, ticketId), `adminTickets` by
(eventId, ticketId), `referrals` by (eventCreatorId, eventId, code). -/
structure Store where
  refs : List (String × RefRecord) := []
  users : List (String × UserRecord) := []
  ticketHistory : List ((String × String) × TicketHistoryDoc) := []
  attendees : List ((String × String × String) × TicketDoc) := []
  adminTickets : List ((String × String) × AdminDoc) := []
  referrals : List ((String × String × String) × ReferralDoc) := []
  deriving DecidableEq, Repr

/-! ## Ticket identifier generator (`generateTicketId`, IWSS.js 442-454)

The JS function draws
  * `randomNumbers = Math.floor(10000000 + Math.random() * 90000000).toString()`
    — the decimal representation of an integer in [10000000, 99999999],
    hence a string of exactly 8 decimal digits;
  * `randomLetters = Math.random().toString(36).substring(2, 4).toUpperCase()`
    — two characters of the base-36 expansion, each a decimal digit or
    an uppercase letter (for all but a measure-zero set of draws the
    expansion has at least two fractional digits);
  * `pos1 = Math.floor(Math.random() * 8)` ∈ [0, 7];
  * `pos2 = Math.floor(Math.random() * 7) + pos1 + 1` = pos1 + 1 + k, k ∈ [0, 6].
These four draws are the explicit arguments of the embedding. -/

/-- `generateTicketId`, with the randomness passed in explicitly. -/
def generateTicketId (randomNumbers randomLetters : String) (pos1 pos2 : Nat) : String :=
  let part1 := jsSubstring randomNumbers 0 pos1
  let part2 := jsSubstring randomNumbers pos1 pos2
  let part3 := jsSubstringFrom randomNumbers pos2
  "SPTX-TX-" ++ part1 ++ jsCharAt randomLetters 0 ++ part2
    ++ jsCharAt randomLetters 1 ++ part3

/-- A decimal digit, as matched by the regex class `\d`. -/
def isDigitChar (c : Char) : Bool := '0' ≤ c && c ≤ '9'

/-- An uppercase ASCII letter, as matched by the regex class `[A-Z]`. -/
def isUpperChar (c : Char) : Bool := 'A' ≤ c && c ≤ 'Z'

/-- Tail of the spec pattern after the literal prefix:
`\d{2,8}[A-Z]\d{0,7}[A-Z]\d{0,7}`, on a character list.  Because `\d`
and `[A-Z]` are disjoint character classes, a string matches iff it
consists of exactly three digit runs separated by two uppercase
letters, with run lengths 2-8, 0-7 and 0-7: the greedy scan below is
therefore equivalent to the regex. -/
def specTicketPatternTail (rest : List Char) : Bool :=
  let d1 := rest.takeWhile isDigitChar
  match rest.dropWhile isDigitChar with
  | c1 :: r1 =>
    isUpperChar c1 &&
      (let d2 := r1.takeWhile isDigitChar
       match r1.dropWhile isDigitChar with
       | c2 :: r2 =>
         isUpperChar c2 && r2.all isDigitChar &&
           decide (2 ≤ d1.length) && decide (d1.length ≤ 8) &&
           decide (d2.length ≤ 7) && decide (r2.length ≤ 7)
       | [] => false)
  | [] => false

/-- Full-match semantics of the spec's pattern
`SPTX-TX-\d{2,8}[A-Z]\d{0,7}[A-Z]\d{0,7}`. -/
def specTicketPattern (s : String) : Bool :=
  match s.data with
  | 'S' :: 'P' :: 'T' :: 'X' :: '-' :: 'T' :: 'X' :: '-' :: rest =>
    specTicketPatternTail rest
  | _ => false

/-! ## More JavaScript semantics helpers -/

/-- `s.startsWith(p)` (via the character list, so that the kernel can
evaluate it on concrete strings). -/
def strStartsWith (s p : String) : Bool := p.data.isPrefixOf s.data

/-- `a || d` for a string-or-absent value and a string default
(JS `||` falls through on the empty string). -/
def jsOr (a : Option String) (d : String) : String :=
  match a with
  | some s => if s = "" then d else s
  | none => d

/-- `a || d` for a number-or-absent value (JS `||` falls through on 0). -/
def jsOrInt (a : Option Int) (d : Int) : Int :=
  match a with
  | some n => if n = 0 then d else n
  | none => d

/-- `a || null` for a string-or-absent value. -/
def jsOrNull (a : Option String) : Option String :=
  if truthy a then a else none

/-- `a || null` for a number-or-absent value. -/
def jsOrNullInt (a : Option Int) : Option Int :=
  match a with
  | some n => if n = 0 then none else some n
  | none => none

/-! ## Payment-status polling (IWSS.js step 1, lines 43-81)

The `while (attempts < maxAttempts)` loop reads the Reference document
each iteration.  Within one request the store does not change, so each
read yields the same document; the loop state is the `attempts`
counter.  The loop is embedded with explicit fuel because the source
contains no case for a status outside {successful, failed, pending}:
in that case no branch runs, `attempts` is never incremented, and the
loop never terminates — modelled by the fuel running out (`none`). -/

/-- How the polling loop of IWSS.js lines 43-81 ends. -/
inductive PollOutcome where
  /-- the Reference document does not exist: 404 -/
  | notFound
  /-- `status === "successful"`: `break`, proceed with the read data -/
  | confirmed (paymentData : RefRecord)
  /-- `status === "failed"`: 400 Payment Failed -/
  | rejected
  /-- still `pending` after the last attempt: 400 Payment Pending -/
  | stillPending
  /-- the `while` condition became false (unreachable for the source's
  `maxAttempts = 3` starting from `attempts = 0`) -/
  | loopExit
  deriving DecidableEq, Repr

/-- The polling loop, returning the outcome together with the number
of Reference-document reads performed, or `none` when `fuel`
iterations did not suffice (the loop runs forever). -/
def pollStatus (refDoc : Option RefRecord) (maxAttempts : Nat) :
    Nat → Nat → Nat → Option (PollOutcome × Nat)
  | 0, _, _ => none
  | fuel + 1, attempts, reads =>
    if attempts < maxAttempts then
      match refDoc with
      | none => some (.notFound, reads + 1)
      | some pd =>
        if pd.status = some "successful" then some (.confirmed pd, reads + 1)
        else if pd.status = some "failed" then some (.rejected, reads + 1)
        else if pd.status = some "pending" then
          if attempts + 1 < maxAttempts then
            pollStatus refDoc maxAttempts fuel (attempts + 1) (reads + 1)
          else some (.stillPending, reads + 1)
        else pollStatus refDoc maxAttempts fuel attempts (reads + 1)
    else some (.loopExit, reads)

/-- For a status outside {successful, failed, pending} the loop makes
no progress: no fuel is ever enough (the source loop diverges). -/
theorem pollStatus_diverges (pd : RefRecord)
    (h1 : pd.status ≠ some "successful") (h2 : pd.status ≠ some "failed")
    (h3 : pd.status ≠ some "pending") (fuel attempts reads : Nat)
    (hlt : attempts < 3) :
    pollStatus (some pd) 3 fuel attempts reads = none := by
  induction fuel generalizing reads with
  | zero => rfl
  | succ n ih => simp [pollStatus, hlt, h1, h2, h3, ih]

/-! ## The ticket-identifier transaction (IWSS.js step 2, lines 89-120)

`adminDb.runTransaction`: read the Reference document; when a (truthy)
`ticketId` is already present, return it with no write; otherwise
write the freshly generated identifier together with two timestamps in
the same atomic unit, and return it.  `none` models the transaction
throwing (document missing), which the route converts into a 500. -/

def txAssignTicketId (s : Store) (reference freshId nowIso : String) :
    Option (String × Store) :=
  match alookup s.refs reference with
  | none => none
  | some refData =>
    if truthy refData.ticketId then
      some (refData.ticketId.getD "", s)
    else
      some (freshId,
        { s with refs := amap (fun r => { r with
            ticketId := some freshId,
            ticketIdGeneratedAt := some nowIso,
            updatedAt := some nowIso }) s.refs reference })

/-! ## Fan-out write steps shared by the paid and free routes -/

/-- Steps 5, 6 and 9 of both issuance routes: read the ticket document
at its path and create it only when absent (first-write-wins replay
guard); an existing document is left untouched. -/
def setIfAbsent {α β : Type} [DecidableEq α] (l : List (α × β)) (k : α) (v : β) :
    List (α × β) :=
  match alookup l k with
  | some _ => l
  | none => aset l k v

theorem setIfAbsent_of_mem {α β : Type} [DecidableEq α]
    (l : List (α × β)) (k : α) (v w : β) (h : alookup l k = some w) :
    setIfAbsent l k v = l := by
  simp [setIfAbsent, h]

theorem alookup_setIfAbsent_self {α β : Type} [DecidableEq α]
    (l : List (α × β)) (k : α) (v : β) :
    ∃ w, alookup (setIfAbsent l k v) k = some w := by
  unfold setIfAbsent
  cases h : alookup l k with
  | none => exact ⟨v, by simp [alookup_aset_self]⟩
  | some w => exact ⟨w, h⟩

/-- `FieldValue.arrayUnion` on a `usages` array: appends the entry
unless an equal entry is already present. -/
def arrayUnion (l : List UsageEntry) (e : UsageEntry) : List UsageEntry :=
  if e ∈ l then l else l ++ [e]

/-- Step 8 of both issuance routes: when a referral code (or name) is
present and the referral document exists, append a usage entry and
increment `totalTickets`; otherwise leave the store unchanged. -/
def updateReferralStep (s : Store) (pd : RefRecord) (ud : UserRecord)
    (nowIso : String) : Store :=
  if truthy pd.referralCode || truthy pd.referralName then
    let code := jsOr pd.referralCode (jsOr pd.referralName "")
    let key := (pd.eventCreatorId, pd.eventId, code)
    match alookup s.referrals key with
    | some _ =>
      { s with referrals := amap (fun rd =>
          { rd with
            usages := arrayUnion rd.usages
              { name := jsOr ud.fullName (jsOr ud.username "Unknown")
                ticketType := pd.ticketType
                purchaseDate := nowIso }
            totalTickets := rd.totalTickets + 1 }) s.referrals key }
    | none => s
  else s

/-- The field patch of step 10: completion flag plus timestamps. -/
def markGeneratedFields (nowIso : String) (r : RefRecord) : RefRecord :=
  { r with
    ticketGenerated := some true
    ticketGeneratedAt := some nowIso
    updatedAt := some nowIso }

/-- Step 10 of both issuance routes: mark completion on the Reference
document. -/
def markTicketGenerated (s : Store) (reference nowIso : String) : Store :=
  { s with refs := amap (markGeneratedFields nowIso) s.refs reference }

/-! ## Ticket document builders (step 4 of each issuance route) -/

/-- The `ticketData` object of the paid route (IWSS.js lines 140-167). -/
def mkTicketData (pd : RefRecord) (ud : UserRecord)
    (ticketId reference purchaseDate purchaseTime nowIso : String) : TicketDoc :=
  { uid := pd.userId
    fullName := jsOr ud.fullName (jsOr ud.username "")
    email := jsOr ud.email ""
    phoneNumber := jsOr ud.phoneNumber ""
    ticketType := pd.ticketType
    ticketId := ticketId
    ticketReference := reference
    purchaseDate := purchaseDate
    purchaseTime := purchaseTime
    verified := false
    paymentMethod := "IWSS"
    originalPrice := jsOrInt pd.ticketPrice 0
    ticketPrice := jsOrInt pd.ticketPrice 0
    transactionFee := jsOrInt pd.transactionFee 0
    totalAmount := jsOrInt pd.totalAmount 0
    discountApplied := truthy pd.discountCode
    discountCode := jsOrNull pd.discountCode
    referralCode := jsOrNull pd.referralCode
    referralName := jsOrNull pd.referralName
    eventVenue := jsOrNull pd.eventVenue
    eventType := jsOrNull pd.eventType
    eventDate := jsOrNull pd.eventDate
    eventEndDate := jsOrNull pd.eventEndDate
    eventStart := jsOrNull pd.eventStart
    eventEnd := jsOrNull pd.eventEnd
    createdAt := nowIso }

/-- The `ticketData` object of the free route (IWSS.js lines 572-599):
payment method "Free Ticket", all monetary fields pinned to zero, no
discount. -/
def mkFreeTicketData (pd : RefRecord) (ud : UserRecord)
    (ticketId reference purchaseDate purchaseTime nowIso : String) : TicketDoc :=
  { uid := pd.userId
    fullName := jsOr ud.fullName (jsOr ud.username "")
    email := jsOr ud.email ""
    phoneNumber := jsOr ud.phoneNumber ""
    ticketType := pd.ticketType
    ticketId := ticketId
    ticketReference := reference
    purchaseDate := purchaseDate
    purchaseTime := purchaseTime
    verified := false
    paymentMethod := "Free Ticket"
    originalPrice := 0
    ticketPrice := 0
    transactionFee := 0
    totalAmount := 0
    discountApplied := false
    discountCode := none
    referralCode := jsOrNull pd.referralCode
    referralName := jsOrNull pd.referralName
    eventVenue := jsOrNull pd.eventVenue
    eventType := jsOrNull pd.eventType
    eventDate := jsOrNull pd.eventDate
    eventEndDate := jsOrNull pd.eventEndDate
    eventStart := jsOrNull pd.eventStart
    eventEnd := jsOrNull pd.eventEnd
    createdAt := nowIso }

/-- The `TicketHistory` document: the ticket data spread together with
the three event fields (IWSS.js lines 180-185 and 611-616). -/
def mkHistoryDoc (td : TicketDoc) (pd : RefRecord) : TicketHistoryDoc :=
  { toTicketDoc := td
    eventId := pd.eventId
    eventName := pd.eventName
    eventCreatorId := pd.eventCreatorId }

/-- The admin-ledger document of the paid route (IWSS.js lines 281-291). -/
def mkAdminDoc (pd : RefRecord)
    (reference nowIso purchaseDate purchaseTime : String) : AdminDoc :=
  { reference := reference
    uid := pd.userId
    ticketPrice := pd.ticketPrice
    ticketType := pd.ticketType
    date := nowIso
    purchaseDate := purchaseDate
    purchaseTime := purchaseTime
    eventName := pd.eventName
    eventCreatorId := pd.eventCreatorId }

/-- The admin-ledger document of the free route (IWSS.js lines
722-732): identical except the price is the literal 0. -/
def mkFreeAdminDoc (pd : RefRecord)
    (reference nowIso purchaseDate purchaseTime : String) : AdminDoc :=
  { reference := reference
    uid := pd.userId
    ticketPrice := some 0
    ticketType := pd.ticketType
    date := nowIso
    purchaseDate := purchaseDate
    purchaseTime := purchaseTime
    eventName := pd.eventName
    eventCreatorId := pd.eventCreatorId }

/-! ## The paid issuance route (POST /ticket/iwss) -/

/-- The possible responses of POST /ticket/iwss.  The `success` payload
carries the fields the claims are about; `diverges` is the model's
name for the request never producing a response (see `pollStatus`). -/
inductive IWSSResp where
  | missingReference
  | invalidFormat
  | referenceNotFound
  | paymentFailed
  | paymentPending
  | userNotFound
  | internalError
  | diverges
  | success (ticketId : String) (ticketPrice totalAmount : Option Int)
  deriving DecidableEq, Repr

/-- The HTTP status code the route sends for each response
(`none` for `diverges`: no response is ever produced). -/
def IWSSResp.code : IWSSResp → Option Nat
  | .missingReference => some 400
  | .invalidFormat => some 400
  | .referenceNotFound => some 404
  | .paymentFailed => some 400
  | .paymentPending => some 400
  | .userNotFound => some 404
  | .internalError => some 500
  | .diverges => none
  | .success _ _ _ => some 200

/-- The `error` field of the route's JSON body for each response. -/
def IWSSResp.errorName : IWSSResp → Option String
  | .missingReference => some "Bad Request"
  | .invalidFormat => some "Bad Request"
  | .referenceNotFound => some "Not Found"
  | .paymentFailed => some "Payment Failed"
  | .paymentPending => some "Payment Pending"
  | .userNotFound => some "User Not Found"
  | .internalError => some "Internal Server Error"
  | .diverges => none
  | .success _ _ _ => none

/-- The ticketId carried by a success response. -/
def IWSSResp.ticketId : IWSSResp → Option String
  | .success tid _ _ => some tid
  | _ => none

/-- The POST /ticket/iwss handler (`IWSSRoute`, IWSS.js lines 15-423).
`freshId` is the identifier `generateTicketId()` would mint on this
call, `nowIso`/`purchaseDate`/`purchaseTime` are the renderings of
`new Date()`, and `pollFuel` bounds the polling loop (see
`pollStatus`).  The atomic-operations, analytics and e-mail `fetch`es
(steps 7, 11, 12) are outbound calls whose failures the source
swallows and which never touch the document store; they do not appear
in the store transition. -/
def iwssHandler (freshId nowIso purchaseDate purchaseTime : String)
    (pollFuel : Nat) (reference : Option String) (s : Store) :
    IWSSResp × Store :=
  if !truthy reference then (.missingReference, s)
  else
    let ref := reference.getD ""
    if !strStartsWith ref "SPTX-REF-" then (.invalidFormat, s)
    else
      match pollStatus (alookup s.refs ref) 3 pollFuel 0 0 with
      | none => (.diverges, s)
      | some (.notFound, _) => (.referenceNotFound, s)
      | some (.rejected, _) => (.paymentFailed, s)
      | some (.stillPending, _) => (.paymentPending, s)
      | some (.loopExit, _) => (.internalError, s)
      | some (.confirmed pd, _) =>
        match txAssignTicketId s ref freshId nowIso with
        | none => (.internalError, s)
        | some (ticketId, s1) =>
          match alookup s1.users pd.userId with
          | none => (.userNotFound, s1)
          | some ud =>
            let td := mkTicketData pd ud ticketId ref purchaseDate purchaseTime nowIso
            let thd := mkHistoryDoc td pd
            let s2 := { s1 with
              ticketHistory := setIfAbsent s1.ticketHistory (pd.userId, ticketId) thd }
            let s3 := { s2 with
              attendees := setIfAbsent s2.attendees (pd.eventCreatorId, pd.eventId, ticketId) td }
            let s4 := updateReferralStep s3 pd ud nowIso
            let s5 := { s4 with
              adminTickets := setIfAbsent s4.adminTickets (pd.eventId, ticketId)
                (mkAdminDoc pd ref nowIso purchaseDate purchaseTime) }
            let s6 := markTicketGenerated s5 ref nowIso
            (.success ticketId pd.ticketPrice pd.totalAmount, s6)

/-! ## The free issuance route (POST /ticket/free) -/

/-- The possible responses of POST /ticket/free.  The success payload
carries the literal monetary fields of the source's response (IWSS.js
lines 831-832). -/
inductive FreeResp where
  | missingReference
  | invalidFormat
  | referenceNotFound
  /-- vendor marker missing or status not `settled`: 400 "Invalid Reference" -/
  | invalidReference
  | userNotFound
  | internalError
  | success (ticketId : String) (ticketPrice totalAmount : Int)
  deriving DecidableEq, Repr

/-- The HTTP status code of each free-route response. -/
def FreeResp.code : FreeResp → Nat
  | .missingReference => 400
  | .invalidFormat => 400
  | .referenceNotFound => 404
  | .invalidReference => 400
  | .userNotFound => 404
  | .internalError => 500
  | .success _ _ _ => 200

/-- The result of one free-route call: the response, the resulting
store, and how many times the vendor/status gate of IWSS.js line 507
was evaluated (the free route has no retry loop, so this instruments
the claim that the check runs exactly once). -/
structure FreeOut where
  resp : FreeResp
  store : Store
  statusChecks : Nat
  deriving DecidableEq, Repr

/-- The POST /ticket/free handler (`freeTicketRoute`, IWSS.js lines
468-860).  Identical shape to the paid route minus the polling loop:
the reference is read once, the vendor/status gate runs once, and all
monetary fields are pinned to zero.  The atomic-operations, analytics
and e-mail `fetch`es are outbound calls that never touch the store. -/
def freeTicketHandler (freshId nowIso purchaseDate purchaseTime : String)
    (reference : Option String) (s : Store) : FreeOut :=
  if !truthy reference then ⟨.missingReference, s, 0⟩
  else
    let ref := reference.getD ""
    if !strStartsWith ref "SPTX-FREE-" then ⟨.invalidFormat, s, 0⟩
    else
      match alookup s.refs ref with
      | none => ⟨.referenceNotFound, s, 0⟩
      | some pd =>
        if pd.vendor ≠ some "free ticket" ∨ pd.status ≠ some "settled" then
          ⟨.invalidReference, s, 1⟩
        else
          match txAssignTicketId s ref freshId nowIso with
          | none => ⟨.internalError, s, 1⟩
          | some (ticketId, s1) =>
            match alookup s1.users pd.userId with
            | none => ⟨.userNotFound, s1, 1⟩
            | some ud =>
              let td := mkFreeTicketData pd ud ticketId ref purchaseDate purchaseTime nowIso
              let thd := mkHistoryDoc td pd
              let s2 := { s1 with
                ticketHistory := setIfAbsent s1.ticketHistory (pd.userId, ticketId) thd }
              let s3 := { s2 with
                attendees := setIfAbsent s2.attendees (pd.eventCreatorId, pd.eventId, ticketId) td }
              let s4 := updateReferralStep s3 pd ud nowIso
              let s5 := { s4 with
                adminTickets := setIfAbsent s4.adminTickets (pd.eventId, ticketId)
                  (mkFreeAdminDoc pd ref nowIso purchaseDate purchaseTime) }
              let s6 := markTicketGenerated s5 ref nowIso
              ⟨.success ticketId 0 0, s6, 1⟩

/-! ## The webhook route (POST /webhook, `src/v1/webhook.js`)

The signed-event verification recomputes an HMAC-SHA512 of the
JSON-serialised request body under the Paystack secret and compares it
with the `x-paystack-signature` header.  The MAC itself is an external
cryptographic primitive; it is passed in as an opaque function of the
secret and the body, so every theorem below holds for any MAC. -/

/-- One entry of `data.metadata.custom_fields`. -/
structure CustomField where
  variableName : String
  value : String
  deriving DecidableEq, Repr

/-- The `data` object of a Paystack webhook event.  The optional chain
`data?.metadata?.custom_fields` is collapsed into one optional list
(absence at either level yields `undefined` in the source). -/
structure WebhookData where
  reference : Option String := none
  customFields : Option (List CustomField) := none
  amount : Option Int := none
  currency : Option String := none
  customerEmail : Option String := none
  customerCode : Option String := none
  deriving DecidableEq, Repr

/-- A Paystack webhook request body. -/
structure WebhookBody where
  event : String
  data : Option WebhookData := none
  deriving DecidableEq, Repr

/-- The possible responses of POST /webhook. -/
inductive WebhookResp where
  | configError
  | invalidSignature
  | missingReference
  /-- metadata type is not `ticket_purchase`: acknowledged, not applied -/
  | notTicketPurchase (transactionType : Option String)
  | referenceNotFound
  | updated (reference status : String)
  | ignoredEvent (event : String)
  deriving DecidableEq, Repr

/-- The HTTP status code of each webhook response. -/
def WebhookResp.code : WebhookResp → Nat
  | .configError => 500
  | .invalidSignature => 401
  | .missingReference => 400
  | .notTicketPurchase _ => 200
  | .referenceNotFound => 404
  | .updated _ _ => 200
  | .ignoredEvent _ => 200

/-- The POST /webhook handler (`webhookRoute`, webhook.js lines
10-129).  `mac secret body` is the recomputed
`crypto.createHmac("sha512", secret).update(JSON.stringify(body))`
digest; `signature` is the `x-paystack-signature` header. -/
def webhookHandler (mac : String → WebhookBody → String)
    (secret : Option String) (signature : Option String)
    (body : WebhookBody) (nowIso : String) (s : Store) : WebhookResp × Store :=
  match secret with
  | none => (.configError, s)
  | some key =>
    if signature ≠ some (mac key body) then (.invalidSignature, s)
    else if body.event = "charge.success" ∨ body.event = "charge.failed" then
      match body.data with
      | none => (.missingReference, s)
      | some d =>
        if !truthy d.reference then (.missingReference, s)
        else
          let ref := d.reference.getD ""
          let transactionType :=
            match d.customFields with
            | none => none
            | some fs => (fs.find? (fun f => f.variableName = "type")).map (·.value)
          if transactionType ≠ some "ticket_purchase" then
            (.notTicketPurchase transactionType, s)
          else
            let paymentStatus :=
              if body.event = "charge.success" then "successful" else "failed"
            match alookup s.refs ref with
            | none => (.referenceNotFound, s)
            | some _ =>
              (.updated ref paymentStatus,
                { s with refs := amap (fun r => { r with
                    status := some paymentStatus
                    updatedAt := some nowIso
                    paystackEvent := some body.event
                    transactionType := some "ticket_purchase"
                    amount := jsOrNullInt d.amount
                    currency := jsOrNull d.currency
                    customerEmail := jsOrNull d.customerEmail
                    customerCode := jsOrNull d.customerCode }) s.refs ref })
    else (.ignoredEvent body.event, s)

/-! ## The bank-resolution route (GET /verify, `src/v1/verify.js`) -/

/-- The static bank-name → Paystack-bank-code table (verify.js lines
16-84), in source order. -/
def bankCodes : List (String × String) :=
  [ ("Access Bank", "044")
  , ("Citibank", "023")
  , ("Ecobank Nigeria", "050")
  , ("Fidelity Bank", "070")
  , ("First Bank of Nigeria", "011")
  , ("First City Monument Bank", "214")
  , ("FCMB", "214")
  , ("Globus Bank", "00103")
  , ("Guaranty Trust Bank", "058")
  , ("GTBank", "058")
  , ("GT Bank", "058")
  , ("Heritage Bank", "030")
  , ("Jaiz Bank", "301")
  , ("Keystone Bank", "082")
  , ("Lotus Bank", "303")
  , ("Parallex Bank", "526")
  , ("Polaris Bank", "076")
  , ("Providus Bank", "101")
  , ("Stanbic IBTC Bank", "221")
  , ("Stanbic IBTC", "221")
  , ("Standard Chartered Bank", "068")
  , ("Sterling Bank", "232")
  , ("SunTrust Bank", "100")
  , ("Taj Bank", "302")
  , ("Titan Trust Bank", "102")
  , ("Union Bank of Nigeria", "032")
  , ("Union Bank", "032")
  , ("United Bank For Africa", "033")
  , ("UBA", "033")
  , ("Unity Bank", "215")
  , ("Wema Bank", "035")
  , ("Zenith Bank", "057")
  , ("Opay", "999992")
  , ("OPay", "999992")
  , ("Palmpay", "999991")
  , ("PalmPay", "999991")
  , ("Moniepoint MFB", "50515")
  , ("Moniepoint", "50515")
  , ("Kuda Bank", "50211")
  , ("Kuda", "50211")
  , ("VFD Microfinance Bank", "566")
  , ("VFD MFB", "566")
  , ("Rubies MFB", "125")
  , ("Sparkle Microfinance Bank", "51310")
  , ("Infinity MFB", "50457")
  , ("Aso Savings and Loans", "401")
  , ("Covenant MFB", "551")
  , ("Ekondo Microfinance Bank", "562")
  , ("Eyowo", "50126")
  , ("Hasal Microfinance Bank", "50383")
  , ("NPF MicroFinance Bank", "552")
  , ("Paga", "100002")
  , ("FSDH Merchant Bank Limited", "501")
  , ("Rand Merchant Bank", "502")
  , ("Nova Merchant Bank", "060")
  , ("9mobile 9Payment Service Bank", "120001")
  , ("Abbey Mortgage Bank", "404")
  , ("Lagos Building Investment Company Plc.", "90052")
  , ("Mutual Trust Microfinance Bank", "090129")
  , ("Petra Mircofinance Bank Plc", "50746")
  , ("Signature Bank Ltd", "50453")
  , ("TCF MFB", "51211") ]

/-- The property names a plain object literal such as `bankCodes`
inherits from `Object.prototype`.  Indexing the literal with one of
these (`bankCodes["constructor"]`, `bankCodes["toString"]`, ...) does
not yield `undefined` but the inherited function (or, for
`__proto__`, the prototype object) — a truthy value. -/
def objectPrototypeNames : List String :=
  [ "constructor", "hasOwnProperty", "isPrototypeOf",
    "propertyIsEnumerable", "toLocaleString", "toString", "valueOf",
    "__proto__", "__defineGetter__", "__defineSetter__",
    "__lookupGetter__", "__lookupSetter__" ]

/-- The result of the JS property access `bankCodes[bankName]`: an own
entry of the table (a bank-code string), a truthy value inherited from
`Object.prototype`, or `undefined`. -/
inductive JsProp where
  | ownString (s : String)
  | inherited
  | undefinedProp
  deriving DecidableEq, Repr

/-- JS property lookup on an object literal: own entries first, then
the `Object.prototype` chain, then `undefined`. -/
def jsIndex (table : List (String × String)) (key : String) : JsProp :=
  match alookup table key with
  | some v => .ownString v
  | none => if key ∈ objectPrototypeNames then .inherited else .undefinedProp

/-- The GET /verify handler up to its external boundary: the
`gatewayCall` constructor marks that (and with which arguments) the
handler reaches the `fetch` of the Paystack resolve API; everything
after that only relays the gateway's answer.  `gatewayCallInherited`
marks the same fetch being reached with `bankCode` bound to a value
inherited from `Object.prototype` (the URL then interpolates that
function's or object's stringification); it carries the property name
that was looked up. -/
inductive VerifyResp where
  | missingParams
  | unsupportedBank (bankName : String)
  | configError
  | gatewayCall (accountNumber bankCode : String)
  | gatewayCallInherited (accountNumber prototypeName : String)
  deriving DecidableEq, Repr

/-- The HTTP status code of each /verify response decided locally
(`none` for the gateway calls: the code then depends on the gateway). -/
def VerifyResp.code : VerifyResp → Option Nat
  | .missingParams => some 400
  | .unsupportedBank _ => some 400
  | .configError => some 500
  | .gatewayCall _ _ => none
  | .gatewayCallInherited _ _ => none

/-- Whether the external gateway is called. -/
def VerifyResp.callsGateway : VerifyResp → Bool
  | .gatewayCall _ _ => true
  | .gatewayCallInherited _ _ => true
  | _ => false

/-- The GET /verify handler (`verifyRoute`, verify.js lines 5-137),
up to the external gateway call.  The source tests
`const bankCode = bankCodes[bankName]; if (!bankCode)`: an own table
entry and an inherited `Object.prototype` value are both truthy, so
both proceed past the 400 to the secret check and the fetch. -/
def verifyHandler (accountNumber bankName : Option String)
    (secret : Option String) : VerifyResp :=
  if !truthy accountNumber || !truthy bankName then .missingParams
  else
    match jsIndex bankCodes (bankName.getD "") with
    | .undefinedProp => .unsupportedBank (bankName.getD "")
    | .ownString bankCode =>
      match secret with
      | none => .configError
      | some _ => .gatewayCall (accountNumber.getD "") bankCode
    | .inherited =>
      match secret with
      | none => .configError
      | some _ => .gatewayCallInherited (accountNumber.getD "") (bankName.getD "")

/-! ## The payment-verification route (GET /verify-payment,
`src/v1/verify-payment.js`) -/

/-- The possible responses of GET /verify-payment.  The success payload
carries the reference and the stored record, from which the source
derives its JSON body with `|| null` / `|| 0` defaults. -/
inductive VPResp where
  /-- a query parameter other than `ref` was supplied: 400 naming them -/
  | invalidParams (foreignParams : List String)
  | missingRef
  | invalidFormat
  | referenceNotFound
  | success (reference : String) (paymentData : RefRecord)
  deriving DecidableEq, Repr

/-- The HTTP status code of each /verify-payment response. -/
def VPResp.code : VPResp → Nat
  | .invalidParams _ => 400
  | .missingRef => 400
  | .invalidFormat => 400
  | .referenceNotFound => 404
  | .success _ _ => 200

/-- The GET /verify-payment handler (`verifyPaymentRoute`,
verify-payment.js lines 13-116).  `query` is the parsed query string
as key/value pairs. -/
def verifyPaymentHandler (query : List (String × String)) (s : Store) :
    VPResp × Store :=
  let queryKeys := query.map Prod.fst
  let foreignParams := queryKeys.filter (fun k => decide (k ∉ ["ref"]))
  if foreignParams ≠ [] then (.invalidParams foreignParams, s)
  else
    let refOpt := alookup query "ref"
    if !truthy refOpt then (.missingRef, s)
    else
      let ref := refOpt.getD ""
      if !strStartsWith ref "SPTX-REF-" then (.invalidFormat, s)
      else
        match alookup s.refs ref with
        | none => (.referenceNotFound, s)
        | some pd => (.success ref pd, s)

/-! ## Supporting lemmas -/

theorem updateReferralStep_refs (s : Store) (pd : RefRecord) (ud : UserRecord)
    (n : String) : (updateReferralStep s pd ud n).refs = s.refs := by
  unfold updateReferralStep
  split
  · dsimp only; split <;> rfl
  · rfl

theorem updateReferralStep_users (s : Store) (pd : RefRecord) (ud : UserRecord)
    (n : String) : (updateReferralStep s pd ud n).users = s.users := by
  unfold updateReferralStep
  split
  · dsimp only; split <;> rfl
  · rfl

theorem updateReferralStep_ticketHistory (s : Store) (pd : RefRecord)
    (ud : UserRecord) (n : String) :
    (updateReferralStep s pd ud n).ticketHistory = s.ticketHistory := by
  unfold updateReferralStep
  split
  · dsimp only; split <;> rfl
  · rfl

theorem updateReferralStep_attendees (s : Store) (pd : RefRecord)
    (ud : UserRecord) (n : String) :
    (updateReferralStep s pd ud n).attendees = s.attendees := by
  unfold updateReferralStep
  split
  · dsimp only; split <;> rfl
  · rfl

theorem updateReferralStep_adminTickets (s : Store) (pd : RefRecord)
    (ud : UserRecord) (n : String) :
    (updateReferralStep s pd ud n).adminTickets = s.adminTickets := by
  unfold updateReferralStep
  split
  · dsimp only; split <;> rfl
  · rfl

/-- A non-empty string cannot start with `SPTX-REF-` while being empty:
any reference passing the format check is truthy. -/
theorem ne_empty_of_startsWith (ref p : String) (hp : p ≠ "")
    (h : strStartsWith ref p = true) : ref ≠ "" := by
  rintro rfl
  cases hp' : p.data with
  | nil => exact hp (by cases p; simp_all)
  | cons c l => rw [strStartsWith, hp'] at h; simp [List.isPrefixOf] at h

/-- Truthiness of a present string, in rewriting form. -/
theorem truthy_some (s : String) : truthy (some s) = !decide (s = "") := rfl

/-! ## Claim theorems -/

/-- Claim C2 (counterexample): the declared status domain contains
`settled`, but the paid polling loop has no branch for it, so for a
reference with `status = "settled"` the payment-confirmation step is
still running after 4 Reference reads — it does not terminate after at
most 3 reads with a terminal outcome, contradicting the claim. -/
theorem pollStatus_settled_cex :
    pollStatus (some { status := some "settled" }) 3 4 0 0 = none := by decide

/-- Claim C2 (amended): for every reference record whose status lies
in {pending, successful, failed}, the payment-confirmation step
terminates after at most 3 reads of the Reference Store, reaching one
of the terminal outcomes Confirmed (proceed), Rejected (400) or
StillPending (400); a `settled` status, although in the declared
domain, makes the loop run forever. -/
theorem pollStatus_terminates (pd : RefRecord) (fuel : Nat) (hfuel : 3 ≤ fuel)
    (h : pd.status = some "pending" ∨ pd.status = some "successful" ∨
      pd.status = some "failed") :
    ∃ o reads, pollStatus (some pd) 3 fuel 0 0 = some (o, reads) ∧ reads ≤ 3 ∧
      ((∃ q, o = PollOutcome.confirmed q) ∨ o = PollOutcome.rejected ∨
        o = PollOutcome.stillPending) := by
  obtain ⟨f, rfl⟩ : ∃ f, fuel = f + 3 := ⟨fuel - 3, by omega⟩
  rcases h with h | h | h
  · exact ⟨.stillPending, 3, by simp [pollStatus, h], by omega, Or.inr (Or.inr rfl)⟩
  · exact ⟨.confirmed pd, 1, by simp [pollStatus, h], by omega, Or.inl ⟨pd, rfl⟩⟩
  · exact ⟨.rejected, 1, by simp [pollStatus, h], by omega, Or.inr (Or.inl rfl)⟩

/-- Claim C2 (witness for the amended theorem): a concrete pending
record terminates within 3 reads. -/
theorem pollStatus_terminates_witness :
    ∃ o reads,
      pollStatus (some { status := some "pending" }) 3 3 0 0 = some (o, reads) ∧
      reads ≤ 3 ∧
      ((∃ q, o = PollOutcome.confirmed q) ∨ o = PollOutcome.rejected ∨
        o = PollOutcome.stillPending) :=
  pollStatus_terminates { status := some "pending" } 3 (by decide) (Or.inl rfl)

/-- Claim C4: a webhook request whose recomputed secret-keyed MAC over
the request body differs from the supplied `x-paystack-signature`
header is answered with 401 and causes no Reference Store mutation;
this holds for every MAC function, secret, body and store. -/
theorem webhook_bad_signature (mac : String → WebhookBody → String)
    (key : String) (signature : Option String) (body : WebhookBody)
    (nowIso : String) (s : Store)
    (h : signature ≠ some (mac key body)) :
    webhookHandler mac (some key) signature body nowIso s =
      (WebhookResp.invalidSignature, s) ∧
    WebhookResp.code (webhookHandler mac (some key) signature body nowIso s).1
      = 401 := by
  unfold webhookHandler
  simp [h, WebhookResp.code]

/-- Claim C4 (witness): a concrete mismatching signature. -/
theorem webhook_bad_signature_witness :
    webhookHandler (fun k _ => k) (some "secret") (some "bad")
        { event := "charge.success" } "2025-01-01T00:00:00Z" {} =
      (WebhookResp.invalidSignature, {}) ∧
    WebhookResp.code (webhookHandler (fun k _ => k) (some "secret") (some "bad")
        { event := "charge.success" } "2025-01-01T00:00:00Z" {}).1 = 401 :=
  webhook_bad_signature (fun k _ => k) "secret" (some "bad")
    { event := "charge.success" } "2025-01-01T00:00:00Z" {} (by decide)

/-- Claim C8 (counterexample): `"constructor"` is not an own entry of
the bank-code table, yet `bankCodes["constructor"]` is a truthy
inherited function, so the handler does not return 400: with the
secret configured it reaches the external gateway fetch, and without
the secret it returns 500 — refuting "for every bank name not present
in the lookup table the handler returns 400 without calling the
external gateway". -/
theorem bank_lookup_prototype_cex :
    alookup bankCodes "constructor" = none ∧
    verifyHandler (some "0123456789") (some "constructor") (some "sk")
      = VerifyResp.gatewayCallInherited "0123456789" "constructor" ∧
    VerifyResp.callsGateway (verifyHandler (some "0123456789")
        (some "constructor") (some "sk")) = true ∧
    VerifyResp.code (verifyHandler (some "0123456789") (some "constructor")
        (some "sk")) ≠ some 400 ∧
    verifyHandler (some "0123456789") (some "constructor") none
      = VerifyResp.configError ∧
    VerifyResp.code (verifyHandler (some "0123456789") (some "constructor")
        none) = some 500 := by
  decide

/-- Claim C8 (amended): the bank-name lookup maps "GTBank", "GT Bank"
and "Guaranty Trust Bank" to the same code "058", and for every bank
name that is neither an own entry of the table nor a property name
inherited from `Object.prototype` the GET /verify handler answers 400
without reaching the external gateway call; an inherited name
("constructor", "toString", ...) instead bypasses the 400 and reaches
the gateway fetch (or the 500 when the secret is unconfigured). -/
theorem bank_lookup_own_absent_400 :
    alookup bankCodes "GTBank" = some "058" ∧
    alookup bankCodes "GT Bank" = some "058" ∧
    alookup bankCodes "Guaranty Trust Bank" = some "058" ∧
    ∀ (accountNumber : Option String) (bankName : String)
      (secret : Option String),
      alookup bankCodes bankName = none →
      bankName ∉ objectPrototypeNames →
      VerifyResp.code (verifyHandler accountNumber (some bankName) secret)
          = some 400 ∧
      VerifyResp.callsGateway (verifyHandler accountNumber (some bankName) secret)
          = false := by
  refine ⟨by decide, by decide, by decide, ?_⟩
  intro accountNumber bankName secret h hproto
  unfold verifyHandler jsIndex
  by_cases ha : truthy accountNumber <;> by_cases hb : truthy (some bankName) <;>
    simp [ha, hb, h, hproto, VerifyResp.code, VerifyResp.callsGateway]

/-- Claim C8 (witness for the amended theorem): an unknown,
non-inherited bank name yields a local 400. -/
theorem bank_lookup_own_absent_400_witness :
    VerifyResp.code (verifyHandler (some "0123456789") (some "Bank of Nowhere")
        (some "sk")) = some 400 ∧
    VerifyResp.callsGateway (verifyHandler (some "0123456789")
        (some "Bank of Nowhere") (some "sk")) = false :=
  (bank_lookup_own_absent_400).2.2.2 (some "0123456789") "Bank of Nowhere"
    (some "sk") (by decide) (by decide)

/-- Claim C10: a GET /verify-payment request whose query string holds
any parameter other than `ref` is answered 400 naming exactly the
foreign parameters, with the store untouched and the response
independent of the store — so before any reference-format check and
before any store access, even when a valid `ref` is also supplied. -/
theorem verify_payment_foreign_params (query : List (String × String))
    (s s' : Store)
    (h : (query.map Prod.fst).filter (fun k => decide (k ∉ ["ref"])) ≠ []) :
    verifyPaymentHandler query s =
      (VPResp.invalidParams
        ((query.map Prod.fst).filter (fun k => decide (k ∉ ["ref"]))), s) ∧
    VPResp.code (verifyPaymentHandler query s).1 = 400 ∧
    (verifyPaymentHandler query s).1 = (verifyPaymentHandler query s').1 := by
  unfold verifyPaymentHandler
  simp only []
  rw [if_pos h, if_pos h]
  exact ⟨rfl, rfl, rfl⟩

/-- Claim C10 (witness): a foreign parameter `foo` next to a valid
`ref`, over a store that does contain the reference. -/
theorem verify_payment_foreign_params_witness :
    verifyPaymentHandler [("ref", "SPTX-REF-123"), ("foo", "x")]
        { refs := [("SPTX-REF-123", { status := some "successful" })] } =
      (VPResp.invalidParams ["foo"],
        { refs := [("SPTX-REF-123", { status := some "successful" })] }) ∧
    VPResp.code (verifyPaymentHandler [("ref", "SPTX-REF-123"), ("foo", "x")]
        { refs := [("SPTX-REF-123", { status := some "successful" })] }).1
      = 400 := by
  have h := verify_payment_foreign_params [("ref", "SPTX-REF-123"), ("foo", "x")]
    { refs := [("SPTX-REF-123", { status := some "successful" })] }
    { refs := [("SPTX-REF-123", { status := some "successful" })] }
    (by decide)
  exact ⟨by simpa using h.1, h.2.1⟩

/-- Claim C5 (counterexample): two draws inside the generator's
sampling domain refute the claim.  With `pos1 = 0` (possible, since
`pos1 = Math.floor(Math.random()*8)`) the first digit run is empty, so
the identifier fails `SPTX-TX-\d{2,8}[A-Z]...`; and the two inserted
characters come from a base-36 expansion, so they can both be digits,
in which case the identifier contains 10 decimal digits and no
uppercase letter at all. -/
theorem generateTicketId_pattern_cex :
    generateTicketId "12345678" "AB" 0 1 = "SPTX-TX-A1B2345678" ∧
    specTicketPattern (generateTicketId "12345678" "AB" 0 1) = false ∧
    generateTicketId "12345678" "12" 2 4 = "SPTX-TX-1213425678" ∧
    specTicketPattern (generateTicketId "12345678" "12" 2 4) = false ∧
    (((generateTicketId "12345678" "12" 2 4).data.drop 8).filter isUpperChar).length
      = 0 ∧
    (((generateTicketId "12345678" "12" 2 4).data.drop 8).filter isDigitChar).length
      = 10 := by
  decide

/-- Claim C5 (amended): every identifier the generator produces from
its sampling domain (an 8-digit decimal string; two inserted
characters each a decimal digit or an uppercase letter, as drawn from
a base-36 expansion; `pos1 ≤ 7`; `pos2 = pos1 + 1 + k` with `k ≤ 6`)
has the shape `SPTX-TX-<digits><char><digits><char><digits>`: the
three digit runs partition the 8-digit string, with run lengths 0-7,
1-7 and 0-7, and each inserted character is a digit or an uppercase
letter — i.e. it matches `SPTX-TX-\d{0,7}[0-9A-Z]\d{1,7}[0-9A-Z]\d{0,7}`
rather than the claimed `SPTX-TX-\d{2,8}[A-Z]\d{0,7}[A-Z]\d{0,7}`. -/
theorem generateTicketId_shape (rn rl : String) (pos1 k : Nat)
    (hlen : rn.data.length = 8) (hdig : rn.data.all isDigitChar = true)
    (hrl : rl.data.length = 2)
    (hrlc : rl.data.all (fun c => isDigitChar c || isUpperChar c) = true)
    (hpos1 : pos1 ≤ 7) (hk : k ≤ 6) :
    ∃ (d1 d2 d3 : List Char) (c1 c2 : Char),
      (generateTicketId rn rl pos1 (pos1 + 1 + k)).data =
        'S' :: 'P' :: 'T' :: 'X' :: '-' :: 'T' :: 'X' :: '-' ::
          (d1 ++ c1 :: (d2 ++ c2 :: d3)) ∧
      d1 ++ d2 ++ d3 = rn.data ∧
      d1.all isDigitChar = true ∧ d2.all isDigitChar = true ∧
      d3.all isDigitChar = true ∧
      (isDigitChar c1 || isUpperChar c1) = true ∧
      (isDigitChar c2 || isUpperChar c2) = true ∧
      d1.length ≤ 7 ∧ 1 ≤ d2.length ∧ d2.length ≤ 7 ∧ d3.length ≤ 7 := by
  obtain ⟨c1, c2, hc⟩ := List.length_eq_two.mp hrl
  set p2 := pos1 + 1 + k with hp2
  refine ⟨rn.data.take pos1, (rn.data.take p2).drop pos1, rn.data.drop p2,
    c1, c2, ?_, ?_, ?_, ?_, ?_, ?_, ?_, ?_, ?_, ?_, ?_⟩
  · show (generateTicketId rn rl pos1 p2).data = _
    unfold generateTicketId jsSubstring jsSubstringFrom jsCharAt
    rw [show rl.toList = rl.data from rfl, hc]
    simp [String.data_append, String.toList]
  · calc rn.data.take pos1 ++ (rn.data.take p2).drop pos1 ++ rn.data.drop p2
        = (rn.data.take p2).take pos1 ++ (rn.data.take p2).drop pos1
            ++ rn.data.drop p2 := by
          rw [List.take_take, Nat.min_eq_left (by omega)]
      _ = rn.data.take p2 ++ rn.data.drop p2 := by rw [List.take_append_drop]
      _ = rn.data := List.take_append_drop ..
  · exact List.all_eq_true.mpr fun x hx =>
      List.all_eq_true.mp hdig x (List.take_subset _ _ hx)
  · exact List.all_eq_true.mpr fun x hx =>
      List.all_eq_true.mp hdig x (List.take_subset _ _ (List.drop_subset _ _ hx))
  · exact List.all_eq_true.mpr fun x hx =>
      List.all_eq_true.mp hdig x (List.drop_subset _ _ hx)
  · exact List.all_eq_true.mp hrlc c1 (by rw [hc]; simp)
  · exact List.all_eq_true.mp hrlc c2 (by rw [hc]; simp)
  · rw [List.length_take]; omega
  · rw [List.length_drop, List.length_take]; omega
  · rw [List.length_drop, List.length_take]; omega
  · rw [List.length_drop]; omega

/-- Claim C5 (witness for the amended theorem): the decomposition at a
concrete draw. -/
theorem generateTicketId_shape_witness :
    ∃ (d1 d2 d3 : List Char) (c1 c2 : Char),
      (generateTicketId "12345678" "AB" 3 (3 + 1 + 1)).data =
        'S' :: 'P' :: 'T' :: 'X' :: '-' :: 'T' :: 'X' :: '-' ::
          (d1 ++ c1 :: (d2 ++ c2 :: d3)) ∧
      d1 ++ d2 ++ d3 = "12345678".data ∧
      d1.all isDigitChar = true ∧ d2.all isDigitChar = true ∧
      d3.all isDigitChar = true ∧
      (isDigitChar c1 || isUpperChar c1) = true ∧
      (isDigitChar c2 || isUpperChar c2) = true ∧
      d1.length ≤ 7 ∧ 1 ≤ d2.length ∧ d2.length ≤ 7 ∧ d3.length ≤ 7 :=
  generateTicketId_shape "12345678" "AB" 3 1 (by decide) (by decide)
    (by decide) (by decide) (by decide) (by decide)

/-- Claim C3: a reference whose stored record has `status = "failed"`
makes POST /ticket/iwss answer with the Payment Failed 400 and leaves
every store collection — the Reference record included — exactly as it
was: the handler returns before any write. -/
theorem iwss_failed_no_write (g n dd tt : String) (fuel : Nat) (hfuel : 0 < fuel)
    (ref : String) (s : Store) (r : RefRecord)
    (hfmt : strStartsWith ref "SPTX-REF-" = true)
    (href : alookup s.refs ref = some r)
    (hst : r.status = some "failed") :
    iwssHandler g n dd tt fuel (some ref) s = (IWSSResp.paymentFailed, s) ∧
    IWSSResp.code (iwssHandler g n dd tt fuel (some ref) s).1 = some 400 := by
  have hne : ref ≠ "" := ne_empty_of_startsWith ref "SPTX-REF-" (by decide) hfmt
  obtain ⟨f, rfl⟩ : ∃ f, fuel = f + 1 := ⟨fuel - 1, by omega⟩
  unfold iwssHandler
  simp [truthy, hne, hfmt, pollStatus, href, hst, IWSSResp.code]

/-- Claim C3 (witness): a concrete failed reference. -/
theorem iwss_failed_no_write_witness :
    iwssHandler "SPTX-TX-1A2B345678" "T" "D" "H" 3 (some "SPTX-REF-7")
        { refs := [("SPTX-REF-7", { status := some "failed" })] } =
      (IWSSResp.paymentFailed,
        { refs := [("SPTX-REF-7", { status := some "failed" })] }) ∧
    IWSSResp.code (iwssHandler "SPTX-TX-1A2B345678" "T" "D" "H" 3
        (some "SPTX-REF-7")
        { refs := [("SPTX-REF-7", { status := some "failed" })] }).1
      = some 400 :=
  iwss_failed_no_write "SPTX-TX-1A2B345678" "T" "D" "H" 3 (by decide)
    "SPTX-REF-7" { refs := [("SPTX-REF-7", { status := some "failed" })] }
    { status := some "failed" } (by decide) (by decide) rfl

/-- Claim C6: a reference whose stored record stays `pending` on every
read makes POST /ticket/iwss answer with the Payment Pending 400
(error field "Payment Pending"), not a 500, and leaves the store
unchanged. -/
theorem iwss_pending_400 (g n dd tt : String) (fuel : Nat) (hfuel : 3 ≤ fuel)
    (ref : String) (s : Store) (r : RefRecord)
    (hfmt : strStartsWith ref "SPTX-REF-" = true)
    (href : alookup s.refs ref = some r)
    (hst : r.status = some "pending") :
    iwssHandler g n dd tt fuel (some ref) s = (IWSSResp.paymentPending, s) ∧
    IWSSResp.code (iwssHandler g n dd tt fuel (some ref) s).1 = some 400 ∧
    IWSSResp.errorName (iwssHandler g n dd tt fuel (some ref) s).1
      = some "Payment Pending" := by
  have hne : ref ≠ "" := ne_empty_of_startsWith ref "SPTX-REF-" (by decide) hfmt
  obtain ⟨f, rfl⟩ : ∃ f, fuel = f + 3 := ⟨fuel - 3, by omega⟩
  unfold iwssHandler
  simp [truthy, hne, hfmt, pollStatus, href, hst, IWSSResp.code, IWSSResp.errorName]

/-- Claim C6 (witness): a concrete forever-pending reference. -/
theorem iwss_pending_400_witness :
    iwssHandler "SPTX-TX-1A2B345678" "T" "D" "H" 3 (some "SPTX-REF-8")
        { refs := [("SPTX-REF-8", { status := some "pending" })] } =
      (IWSSResp.paymentPending,
        { refs := [("SPTX-REF-8", { status := some "pending" })] }) ∧
    IWSSResp.code (iwssHandler "SPTX-TX-1A2B345678" "T" "D" "H" 3
        (some "SPTX-REF-8")
        { refs := [("SPTX-REF-8", { status := some "pending" })] }).1
      = some 400 ∧
    IWSSResp.errorName (iwssHandler "SPTX-TX-1A2B345678" "T" "D" "H" 3
        (some "SPTX-REF-8")
        { refs := [("SPTX-REF-8", { status := some "pending" })] }).1
      = some "Payment Pending" :=
  iwss_pending_400 "SPTX-TX-1A2B345678" "T" "D" "H" 3 (by decide)
    "SPTX-REF-8" { refs := [("SPTX-REF-8", { status := some "pending" })] }
    { status := some "pending" } (by decide) (by decide) rfl

/-- A successful paid reference whose `userId` points at a user that
does not exist (used to exhibit the non-atomic 404 path). -/
def c9Ref : RefRecord :=
  { status := some "successful"
    userId := "u1"
    ticketType := "Regular"
    ticketPrice := some 100
    totalAmount := some 100
    eventId := "e1"
    eventName := "Demo Event"
    eventCreatorId := "c1" }

/-- A store holding only that reference and no users. -/
def c9Store : Store := { refs := [("SPTX-REF-9", c9Ref)] }

/-- Claim C9: there is an execution of POST /ticket/iwss that answers
404 User Not Found and has nevertheless mutated the Reference record:
the identifier-assignment transaction (writing `ticketId`,
`ticketIdGeneratedAt`, `updatedAt`) runs before the user lookup, so
the 404 is not atomic, and a later retry (here: after the user
appears, and with a different freshly drawn identifier available)
reuses the ticketId assigned during the failed call. -/
theorem iwss_user_not_found_mutates :
    (iwssHandler "SPTX-TX-1A2B345678" "T1" "D1" "H1" 3
        (some "SPTX-REF-9") c9Store).1 = IWSSResp.userNotFound ∧
    IWSSResp.code (iwssHandler "SPTX-TX-1A2B345678" "T1" "D1" "H1" 3
        (some "SPTX-REF-9") c9Store).1 = some 404 ∧
    alookup (iwssHandler "SPTX-TX-1A2B345678" "T1" "D1" "H1" 3
        (some "SPTX-REF-9") c9Store).2.refs "SPTX-REF-9" =
      some { c9Ref with
        ticketId := some "SPTX-TX-1A2B345678"
        ticketIdGeneratedAt := some "T1"
        updatedAt := some "T1" } ∧
    alookup (iwssHandler "SPTX-TX-1A2B345678" "T1" "D1" "H1" 3
        (some "SPTX-REF-9") c9Store).2.refs "SPTX-REF-9" ≠ some c9Ref ∧
    (iwssHandler "SPTX-TX-9Z9W888877" "T2" "D2" "H2" 3 (some "SPTX-REF-9")
        { (iwssHandler "SPTX-TX-1A2B345678" "T1" "D1" "H1" 3
            (some "SPTX-REF-9") c9Store).2 with users := [("u1", {})] }).1 =
      IWSSResp.success "SPTX-TX-1A2B345678" (some 100) (some 100) := by
  decide

/-- Claim C7: for a POST /ticket/free request whose reference starts
with `SPTX-FREE-` and resolves to a stored record, the vendor/status
gate is evaluated exactly once (there is no retry loop); when the
record carries the free-ticket vendor marker with `status = "settled"`
and its `userId` resolves to an existing user, the response is a
success whose `ticketPrice` and `totalAmount` are the literal 0; and
when the vendor marker is missing or the status is not `settled`, the
response is the Invalid Reference 400. -/
theorem free_ticket_once_and_zero (g n dd tt : String)
    (ref : String) (s : Store) (r : RefRecord)
    (hfmt : strStartsWith ref "SPTX-FREE-" = true)
    (href : alookup s.refs ref = some r) :
    (freeTicketHandler g n dd tt (some ref) s).statusChecks = 1 ∧
    ((r.vendor = some "free ticket" ∧ r.status = some "settled") →
      ∀ u, alookup s.users r.userId = some u →
        ∃ tid, (freeTicketHandler g n dd tt (some ref) s).resp
          = FreeResp.success tid 0 0) ∧
    (¬ (r.vendor = some "free ticket" ∧ r.status = some "settled") →
      (freeTicketHandler g n dd tt (some ref) s).resp
          = FreeResp.invalidReference ∧
      FreeResp.code (freeTicketHandler g n dd tt (some ref) s).resp = 400) := by
  have hne : ref ≠ "" := ne_empty_of_startsWith ref "SPTX-FREE-" (by decide) hfmt
  by_cases hv : r.vendor = some "free ticket" <;>
    by_cases hs2 : r.status = some "settled"
  · -- vendor marker present and settled: the gate passes
    by_cases htid : truthy r.ticketId <;>
      cases huser : alookup s.users r.userId with
    | none =>
      refine ⟨?_, ?_, ?_⟩ <;>
        simp [freeTicketHandler, txAssignTicketId, truthy_some, hne, hfmt, href,
          hv, hs2, htid, huser, FreeResp.code]
    | some u =>
      refine ⟨?_, ?_, ?_⟩ <;>
        simp [freeTicketHandler, txAssignTicketId, truthy_some, hne, hfmt, href,
          hv, hs2, htid, huser, FreeResp.code]
  all_goals
    refine ⟨?_, ?_, ?_⟩ <;>
      simp [freeTicketHandler, txAssignTicketId, truthy_some, hne, hfmt, href,
        hv, hs2, FreeResp.code]

/-- A concrete settled free-ticket reference record. -/
def c7Ref : RefRecord :=
  { status := some "settled", vendor := some "free ticket", userId := "u1" }

/-- A store holding that free reference and its user. -/
def c7Store : Store :=
  { refs := [("SPTX-FREE-123", c7Ref)], users := [("u1", {})] }

/-- Claim C7 (witness): a concrete settled free reference with an
existing user yields a zero-priced success after a single gate check. -/
theorem free_ticket_once_and_zero_witness :
    (freeTicketHandler "SPTX-TX-1A2B345678" "T" "D" "H" (some "SPTX-FREE-123")
        c7Store).statusChecks = 1 ∧
    ((c7Ref.vendor = some "free ticket" ∧ c7Ref.status = some "settled") →
      ∀ u, alookup c7Store.users c7Ref.userId = some u →
        ∃ tid, (freeTicketHandler "SPTX-TX-1A2B345678" "T" "D" "H"
            (some "SPTX-FREE-123") c7Store).resp = FreeResp.success tid 0 0) :=
  have h := free_ticket_once_and_zero "SPTX-TX-1A2B345678" "T" "D" "H"
    "SPTX-FREE-123" c7Store c7Ref (by decide) (by decide)
  ⟨h.1, h.2.1⟩

/-- Characterization of the paid route on the replay path: a
successful reference that already carries a (truthy) ticketId and
whose user exists.  The response echoes the stored identifier, the
Reference collection receives only the step-10 completion patch, the
users collection is untouched, and each of the three ticket locations
is written through the guarded first-write-wins insert. -/
theorem iwssHandler_replay_proj (g n dd tt : String) (f : Nat) (hf : 0 < f)
    (ref : String) (s : Store) (r : RefRecord) (tid : String) (u : UserRecord)
    (hfmt : strStartsWith ref "SPTX-REF-" = true)
    (href : alookup s.refs ref = some r)
    (hst : r.status = some "successful")
    (htid : r.ticketId = some tid) (hne : tid ≠ "")
    (huser : alookup s.users r.userId = some u) :
    (iwssHandler g n dd tt f (some ref) s).1
        = IWSSResp.success tid r.ticketPrice r.totalAmount ∧
    (iwssHandler g n dd tt f (some ref) s).2.refs
        = amap (markGeneratedFields n) s.refs ref ∧
    (iwssHandler g n dd tt f (some ref) s).2.users = s.users ∧
    (iwssHandler g n dd tt f (some ref) s).2.ticketHistory
        = setIfAbsent s.ticketHistory (r.userId, tid)
            (mkHistoryDoc (mkTicketData r u tid ref dd tt n) r) ∧
    (iwssHandler g n dd tt f (some ref) s).2.attendees
        = setIfAbsent s.attendees (r.eventCreatorId, r.eventId, tid)
            (mkTicketData r u tid ref dd tt n) ∧
    (iwssHandler g n dd tt f (some ref) s).2.adminTickets
        = setIfAbsent s.adminTickets (r.eventId, tid)
            (mkAdminDoc r ref n dd tt) := by
  have hne0 : ref ≠ "" := ne_empty_of_startsWith ref "SPTX-REF-" (by decide) hfmt
  obtain ⟨f', rfl⟩ : ∃ f', f = f' + 1 := ⟨f - 1, by omega⟩
  unfold iwssHandler
  simp [truthy_some, hne0, hfmt, pollStatus, href, hst, txAssignTicketId,
    htid, hne, huser, markTicketGenerated, updateReferralStep_refs,
    updateReferralStep_users, updateReferralStep_ticketHistory,
    updateReferralStep_attendees, updateReferralStep_adminTickets]

/-- Claim C1: for a reference with `status = "successful"` and an
already-assigned ticketId, both calls of POST /ticket/iwss answer with
that same ticketId, the transactional step returns the existing
identifier without writing, and the second call adds no document to
any of the three ticket locations (TicketHistory, attendees, admin):
each fan-out write is skipped because a document with that ticketId
already exists after the first call. -/
theorem iwss_replay_idempotent
    (g1 g2 n1 n2 dd1 dd2 tt1 tt2 : String) (f1 f2 : Nat)
    (hf1 : 0 < f1) (hf2 : 0 < f2)
    (ref : String) (s : Store) (r : RefRecord) (tid : String) (u : UserRecord)
    (hfmt : strStartsWith ref "SPTX-REF-" = true)
    (href : alookup s.refs ref = some r)
    (hst : r.status = some "successful")
    (htid : r.ticketId = some tid) (hne : tid ≠ "")
    (huser : alookup s.users r.userId = some u) :
    txAssignTicketId s ref g1 n1 = some (tid, s) ∧
    IWSSResp.ticketId (iwssHandler g1 n1 dd1 tt1 f1 (some ref) s).1
        = some tid ∧
    IWSSResp.ticketId (iwssHandler g2 n2 dd2 tt2 f2 (some ref)
        (iwssHandler g1 n1 dd1 tt1 f1 (some ref) s).2).1 = some tid ∧
    (iwssHandler g2 n2 dd2 tt2 f2 (some ref)
        (iwssHandler g1 n1 dd1 tt1 f1 (some ref) s).2).2.ticketHistory
      = (iwssHandler g1 n1 dd1 tt1 f1 (some ref) s).2.ticketHistory ∧
    (iwssHandler g2 n2 dd2 tt2 f2 (some ref)
        (iwssHandler g1 n1 dd1 tt1 f1 (some ref) s).2).2.attendees
      = (iwssHandler g1 n1 dd1 tt1 f1 (some ref) s).2.attendees ∧
    (iwssHandler g2 n2 dd2 tt2 f2 (some ref)
        (iwssHandler g1 n1 dd1 tt1 f1 (some ref) s).2).2.adminTickets
      = (iwssHandler g1 n1 dd1 tt1 f1 (some ref) s).2.adminTickets := by
  obtain ⟨H1r, H1refs, H1users, H1th, H1at, H1ad⟩ :=
    iwssHandler_replay_proj g1 n1 dd1 tt1 f1 hf1 ref s r tid u
      hfmt href hst htid hne huser
  have href' : alookup (iwssHandler g1 n1 dd1 tt1 f1 (some ref) s).2.refs ref
      = some (markGeneratedFields n1 r) := by
    rw [H1refs, alookup_amap_self, href]; rfl
  obtain ⟨H2r, H2refs, H2users, H2th, H2at, H2ad⟩ :=
    iwssHandler_replay_proj g2 n2 dd2 tt2 f2 hf2 ref
      (iwssHandler g1 n1 dd1 tt1 f1 (some ref) s).2
      (markGeneratedFields n1 r) tid u hfmt href'
      (by simp [markGeneratedFields, hst])
      (by simp [markGeneratedFields, htid]) hne
      (by rw [H1users]; simpa [markGeneratedFields] using huser)
  refine ⟨by simp [txAssignTicketId, href, htid, truthy_some, hne], ?_, ?_, ?_, ?_, ?_⟩
  · rw [H1r]; rfl
  · rw [H2r]; rfl
  · rw [H2th, H1th]
    obtain ⟨w, hw⟩ := alookup_setIfAbsent_self s.ticketHistory (r.userId, tid)
      (mkHistoryDoc (mkTicketData r u tid ref dd1 tt1 n1) r)
    exact setIfAbsent_of_mem _ _ _ w (by simpa [markGeneratedFields] using hw)
  · rw [H2at, H1at]
    obtain ⟨w, hw⟩ := alookup_setIfAbsent_self s.attendees
      (r.eventCreatorId, r.eventId, tid) (mkTicketData r u tid ref dd1 tt1 n1)
    exact setIfAbsent_of_mem _ _ _ w (by simpa [markGeneratedFields] using hw)
  · rw [H2ad, H1ad]
    obtain ⟨w, hw⟩ := alookup_setIfAbsent_self s.adminTickets
      (r.eventId, tid) (mkAdminDoc r ref n1 dd1 tt1)
    exact setIfAbsent_of_mem _ _ _ w (by simpa [markGeneratedFields] using hw)

/-- A successful paid reference that already carries a ticketId. -/
def c1Ref : RefRecord :=
  { status := some "successful"
    ticketId := some "SPTX-TX-12A34B5678"
    userId := "u1"
    ticketType := "VIP"
    ticketPrice := some 500
    totalAmount := some 520
    eventId := "e1"
    eventName := "Replay Event"
    eventCreatorId := "c1" }

/-- A store holding that reference and its user. -/
def c1Store : Store :=
  { refs := [("SPTX-REF-42", c1Ref)], users := [("u1", {})] }

/-- Claim C1 (witness): the two-call replay at a concrete store. -/
theorem iwss_replay_idempotent_witness :
    txAssignTicketId c1Store "SPTX-REF-42" "SPTX-TX-99Z88Y7766" "T1"
        = some ("SPTX-TX-12A34B5678", c1Store) ∧
    IWSSResp.ticketId (iwssHandler "SPTX-TX-99Z88Y7766" "T1" "D1" "H1" 3
        (some "SPTX-REF-42") c1Store).1 = some "SPTX-TX-12A34B5678" ∧
    IWSSResp.ticketId (iwssHandler "SPTX-TX-77W66V5544" "T2" "D2" "H2" 3
        (some "SPTX-REF-42")
        (iwssHandler "SPTX-TX-99Z88Y7766" "T1" "D1" "H1" 3
          (some "SPTX-REF-42") c1Store).2).1 = some "SPTX-TX-12A34B5678" ∧
    (iwssHandler "SPTX-TX-77W66V5544" "T2" "D2" "H2" 3 (some "SPTX-REF-42")
        (iwssHandler "SPTX-TX-99Z88Y7766" "T1" "D1" "H1" 3
          (some "SPTX-REF-42") c1Store).2).2.ticketHistory
      = (iwssHandler "SPTX-TX-99Z88Y7766" "T1" "D1" "H1" 3
          (some "SPTX-REF-42") c1Store).2.ticketHistory ∧
    (iwssHandler "SPTX-TX-77W66V5544" "T2" "D2" "H2" 3 (some "SPTX-REF-42")
        (iwssHandler "SPTX-TX-99Z88Y7766" "T1" "D1" "H1" 3
          (some "SPTX-REF-42") c1Store).2).2.attendees
      = (iwssHandler "SPTX-TX-99Z88Y7766" "T1" "D1" "H1" 3
          (some "SPTX-REF-42") c1Store).2.attendees ∧
    (iwssHandler "SPTX-TX-77W66V5544" "T2" "D2" "H2" 3 (some "SPTX-REF-42")
        (iwssHandler "SPTX-TX-99Z88Y7766" "T1" "D1" "H1" 3
          (some "SPTX-REF-42") c1Store).2).2.adminTickets
      = (iwssHandler "SPTX-TX-99Z88Y7766" "T1" "D1" "H1" 3
          (some "SPTX-REF-42") c1Store).2.adminTickets :=
  iwss_replay_idempotent "SPTX-TX-99Z88Y7766" "SPTX-TX-77W66V5544"
    "T1" "T2" "D1" "D2" "H1" "H2" 3 3 (by decide) (by decide)
    "SPTX-REF-42" c1Store c1Ref "SPTX-TX-12A34B5678" {}
    (by decide) (by decide) rfl rfl (by decide) (by decide)

end Spotix
